import Mathlib

/-!
Verification of the Makerfabs DW3000 SS-TWR ranging examples.

The definitions below are a shallow embedding of the ranging core found in
`example/range_rx_multi_anchor/range_rx_multi_anchor.ino` (the multi-anchor
responder, "ANCHOR") and `example/range_tx_tag_esp32_web/range_tx_tag_esp32_web.ino`
(the initiator, "TAG").  Machine integers are modelled as `Nat`/`Int` with the
reductions modulo `2^8`, `2^32` and `2^64` made explicit exactly where the C
types force them; radio frames and the receive buffers are `List Nat` of byte
values; the double-precision time-of-flight arithmetic is modelled over `ℚ`.
-/

namespace DW3000

/-- `ALL_MSG_COMMON_LEN`: number of header bytes compared by `memcmp`. -/
def ALL_MSG_COMMON_LEN : Nat := 10

/-- `ALL_MSG_SN_IDX`: index of the sequence-number byte in every frame. -/
def ALL_MSG_SN_IDX : Nat := 2

/-- `RESP_MSG_POLL_RX_TS_IDX`: offset of the poll-RX timestamp field. -/
def RESP_MSG_POLL_RX_TS_IDX : Nat := 10

/-- `RESP_MSG_RESP_TX_TS_IDX`: offset of the response-TX timestamp field. -/
def RESP_MSG_RESP_TX_TS_IDX : Nat := 14

/-- `BASE_REPLY_DLY_US` from `range_rx_multi_anchor.ino`. -/
def BASE_REPLY_DLY_US : Nat := 600

/-- `SLOT_DELAY_US` from `range_rx_multi_anchor.ino`. -/
def SLOT_DELAY_US : Nat := 2000

/-- `ID_MIN` from `range_rx_multi_anchor.ino`. -/
def ID_MIN : Nat := 1

/-- `ID_MAX` from `range_rx_multi_anchor.ino`. -/
def ID_MAX : Nat := 20

/-- `MAX_ANCHORS` from `range_tx_tag_esp32_web.ino`. -/
def MAX_ANCHORS : Nat := 20

/-- `TX_ANT_DLY` antenna delay constant (both sketches). -/
def TX_ANT_DLY : Nat := 16385

/-- `SPEED_OF_LIGHT 299702547.0` (m/s) from `range_tx_tag_esp32_web.ino`. -/
def SPEED_OF_LIGHT : ℚ := 299702547

/-- `DWT_TIME_UNITS (1.0/(499.2e6*128.0))`: seconds per device tick, over `ℚ`. -/
def DWT_TIME_UNITS : ℚ := 1 / (499200000 * 128)

/-- The anchor's expected poll frame `rx_poll_msg`
(identical to the tag's `tx_poll_msg`): bytes
`{0x41, 0x88, 0, 0xCA, 0xDE, 'W', 'A', 'V', 'E', 0xE0, 0, 0}`. -/
def rx_poll_msg : List Nat := [0x41, 0x88, 0, 0xCA, 0xDE, 87, 65, 86, 69, 0xE0, 0, 0]

/-- The anchor's response frame template `tx_resp_msg`
(identical to the tag's `rx_resp_msg`): bytes
`{0x41, 0x88, 0, 0xCA, 0xDE, 'V', 'E', 'W', 'A', 0xE1, 0, ..., 0}` (20 bytes). -/
def tx_resp_msg : List Nat :=
  [0x41, 0x88, 0, 0xCA, 0xDE, 86, 69, 87, 65, 0xE1, 0, 0, 0, 0, 0, 0, 0, 0, 0, 0]

/-- The tag's expected response header `rx_resp_msg` (same bytes as `tx_resp_msg`). -/
def rx_resp_msg : List Nat := tx_resp_msg

/-- Slot-delay computation from `range_rx_multi_anchor.ino` line 189:
`(uint32_t)(BASE_REPLY_DLY_US + (uint32_t)(anchor_id - 1) * SLOT_DELAY_US)`.
`anchor_id` is a `uint8_t`; `anchor_id - 1` is computed in `int` and cast to
`uint32_t`, which for `0 <= id < 2^32` is `(id + 2^32 - 1) % 2^32`. -/
def slot_delay_us (id : Nat) : Nat :=
  (BASE_REPLY_DLY_US + ((id + 4294967295) % 4294967296) * SLOT_DELAY_US) % 4294967296

/-- `us_to_dwt` from `range_rx_multi_anchor.ino`:
`(uint64_t)((double)us * 1e-6 / DWT_TIME_UNITS)`, i.e. `us * 63897.6` truncated;
modelled as the exact rational value floored. -/
def us_to_dwt (us : Nat) : Nat := us * 638976 / 10

/-- `uint32_t` subtraction `a - b` reinterpreted as `int32_t`, as in
`int32_t rtd_init = resp_rx_ts - poll_tx_ts;` (`range_tx_tag_esp32_web.ino`
lines 187-188). -/
def wsub32 (a b : Nat) : Int :=
  let d := (a % 4294967296 + 4294967296 - b % 4294967296) % 4294967296
  if d < 2147483648 then (d : Int) else (d : Int) - 4294967296

/-- `resp_msg_get_ts` from `example/range2/range_tx/range_tx.ino` line 48:
`*ts = p[0] | p[1]<<8 | p[2]<<16 | p[3]<<24`.  The operands are `uint8_t`
buffer cells (hence the `% 256`), so the bitwise-or of the disjoint byte
lanes equals the little-endian weighted sum. -/
def resp_msg_get_ts (p : List Nat) : Nat :=
  p.getD 0 0 % 256 + p.getD 1 0 % 256 * 256 +
    p.getD 2 0 % 256 * 65536 + p.getD 3 0 % 256 * 16777216

/-- Modelled from the spec: the vendor helper `resp_msg_set_ts` (declared but
not defined under the example sources) writes a timestamp "as 4-byte
little-endian integers at fixed offsets"; its four bytes, least significant
first. -/
def resp_msg_set_ts_bytes (ts : Nat) : List Nat :=
  [ts % 256, ts / 256 % 256, ts / 65536 % 256, ts / 16777216 % 256]

/-- Overwrite `bytes.length` cells of `buf` starting at `idx` (the effect of
`resp_msg_set_ts(&msg[idx], ts)` on the surrounding array). -/
def writeBytesAt (buf : List Nat) (idx : Nat) (bytes : List Nat) : List Nat :=
  buf.take idx ++ bytes ++ buf.drop (idx + bytes.length)

/-- Response-frame construction by the anchor (`range_rx_multi_anchor.ino`
lines 198-202): write `poll_rx_ts` at offset 10 and `resp_tx_ts` at offset 14,
then store the anchor id in byte `ALL_MSG_SN_IDX` of `tx_resp_msg`. -/
def encode_response (id t1 t2 : Nat) : List Nat :=
  ((writeBytesAt (writeBytesAt tx_resp_msg RESP_MSG_POLL_RX_TS_IDX
      (resp_msg_set_ts_bytes t1)) RESP_MSG_RESP_TX_TS_IDX
      (resp_msg_set_ts_bytes t2)).set ALL_MSG_SN_IDX id)

/-- Time-of-flight formula (`range_tx_tag_esp32_web.ino` line 190):
`tof = ((rtd_init - rtd_resp * (1 - clockOffsetRatio)) / 2.0) * DWT_TIME_UNITS`,
with the double arithmetic modelled over `ℚ`. -/
def tof_est (ri rr : Int) (co : ℚ) : ℚ :=
  (((ri : ℚ) - (rr : ℚ) * (1 - co)) / 2) * DWT_TIME_UNITS

/-- The tag's 32-byte `rx_buffer` after `dwt_readrxdata(rx_buffer, frame_len, 0)`
with `frame_len` capped at `sizeof(rx_buffer) = 32` (`range_tx_tag_esp32_web.ino`
lines 148-150): the first `min frame.length 32` cells are overwritten, the tail
keeps its previous (stale) contents. -/
def tag_rx_buf (stale frame : List Nat) : List Nat :=
  frame.take (min frame.length 32) ++ stale.drop (min frame.length 32)

/-- `uint8_t anchor_id = rx_buffer[ALL_MSG_SN_IDX];` read before the
sequence-number byte is zeroed (`range_tx_tag_esp32_web.ino` line 157). -/
def tag_seen_id (stale frame : List Nat) : Nat :=
  (tag_rx_buf stale frame).getD ALL_MSG_SN_IDX 0

/-- The tag's buffer after `rx_buffer[ALL_MSG_SN_IDX] = 0;` (line 160). -/
def tag_buf_z (stale frame : List Nat) : List Nat :=
  (tag_rx_buf stale frame).set ALL_MSG_SN_IDX 0

/-- `header_ok` on the tag (`range_tx_tag_esp32_web.ino` lines 162-163):
`(frame_len >= ALL_MSG_COMMON_LEN) && (memcmp(rx_buffer, rx_resp_msg,
ALL_MSG_COMMON_LEN) == 0)` after zeroing the sequence-number byte. -/
def tag_accept (stale frame : List Nat) : Bool :=
  decide (ALL_MSG_COMMON_LEN ≤ min frame.length 32) &&
    ((tag_buf_z stale frame).take ALL_MSG_COMMON_LEN ==
      rx_resp_msg.take ALL_MSG_COMMON_LEN)

/-- Outcome of classifying a received frame. -/
inductive FrameClass where
  | Response : FrameClass
  | Poll : FrameClass
  | Unrecognized : FrameClass
deriving DecidableEq

/-- `decode_and_classify` as the tag performs it: a frame passing `header_ok`
enters the response-processing branch, anything else is dropped. -/
def tag_classify (stale frame : List Nat) : FrameClass :=
  if tag_accept stale frame then FrameClass.Response else FrameClass.Unrecognized

/-- Modelled from the spec: the two decimal digits printed after the point by
`Serial.print(distance, 2)` — "Distance is printed with 2 decimal digits". -/
def two_dec_digits (n : Nat) : String :=
  String.mk [Nat.digitChar (n / 10 % 10), Nat.digitChar (n % 10)]

/-- Modelled from the spec: the Arduino core's `Print::printFloat` used by
`Serial.print(distance, 2)` (not part of this repository): an optional sign,
the integer part in decimal, and exactly two decimal digits obtained from
`n = ⌊|q| * 100 + 1/2⌋` (the core adds a `0.005` rounding term). -/
def fmt2 (q : ℚ) : String :=
  (if q < 0 then "-" else "") ++
    Nat.repr ((⌊|q| * 100 + 1 / 2⌋).toNat / 100) ++ "." ++
    two_dec_digits (⌊|q| * 100 + 1 / 2⌋).toNat

/-- Distance computed by the tag from one accepted response frame
(`range_tx_tag_esp32_web.ino` lines 173-191): local timestamps and remote
timestamps extracted at offsets 10 and 14 of the zeroed buffer, combined by
the SS-TWR formula and scaled by the speed of light. -/
def tag_distance (buf : List Nat) (poll_tx_ts resp_rx_ts : Nat) (co : ℚ) : ℚ :=
  tof_est (wsub32 resp_rx_ts poll_tx_ts)
    (wsub32 (resp_msg_get_ts (buf.drop RESP_MSG_RESP_TX_TS_IDX))
      (resp_msg_get_ts (buf.drop RESP_MSG_POLL_RX_TS_IDX))) co * SPEED_OF_LIGHT

/-- The tag's mutable per-anchor tables and receive buffer:
`distances_m[MAX_ANCHORS]`, `last_seen_ms[MAX_ANCHORS]`, `rx_buffer[32]`. -/
structure TagState where
  distances : List ℚ
  last_seen : List Nat
  buf : List Nat

/-- One good-frame iteration of the tag's collection loop
(`range_tx_tag_esp32_web.ino` lines 143-213): read the frame into the buffer,
note the id byte, zero it, check the header; on success compute the distance
and either update the per-anchor tables and print the `[TAG] A.. = .. m` line
(`anchor_id < MAX_ANCHORS`) or print the `DIST:` fallback line.  Returns the
new state and the text lines printed. -/
def tag_process_frame (st : TagState) (frame : List Nat)
    (poll_tx_ts resp_rx_ts : Nat) (co : ℚ) (now : Nat) : TagState × List String :=
  if tag_accept st.buf frame then
    if tag_seen_id st.buf frame < MAX_ANCHORS then
      (⟨st.distances.set (tag_seen_id st.buf frame)
          (tag_distance (tag_buf_z st.buf frame) poll_tx_ts resp_rx_ts co),
        st.last_seen.set (tag_seen_id st.buf frame) now,
        tag_buf_z st.buf frame⟩,
       ["[TAG] A" ++ Nat.repr (tag_seen_id st.buf frame) ++ " = " ++
          fmt2 (tag_distance (tag_buf_z st.buf frame) poll_tx_ts resp_rx_ts co) ++ " m"])
    else
      (⟨st.distances, st.last_seen, tag_buf_z st.buf frame⟩,
       ["DIST: " ++
          fmt2 (tag_distance (tag_buf_z st.buf frame) poll_tx_ts resp_rx_ts co) ++ " m"])
  else
    (⟨st.distances, st.last_seen, tag_buf_z st.buf frame⟩, [])

/-- The anchor's 20-byte `rx_buffer` after `dwt_readrxdata(rx_buffer,
frame_len, 0)` followed by `rx_buffer[ALL_MSG_SN_IDX] = 0;`
(`range_rx_multi_anchor.ino` lines 175-178).  Note: the anchor performs no
minimum-length check, so for short frames the tail keeps stale bytes from the
previously received frame. -/
def anchor_buf_z (buf0 frame : List Nat) : List Nat :=
  (frame ++ buf0.drop frame.length).set ALL_MSG_SN_IDX 0

/-- The anchor's poll validation (`range_rx_multi_anchor.ino` lines 173-179):
`frame_len <= sizeof(rx_buffer)` and `memcmp(rx_buffer, rx_poll_msg,
ALL_MSG_COMMON_LEN) == 0` after zeroing the sequence byte. -/
def anchor_accept (buf0 frame : List Nat) : Bool :=
  decide (frame.length ≤ 20) &&
    ((anchor_buf_z buf0 frame).take ALL_MSG_COMMON_LEN ==
      rx_poll_msg.take ALL_MSG_COMMON_LEN)

/-- `resp_tx_time32 = (uint32_t)((poll_rx_ts + us_to_dwt(total_uus)) >> 8)`
(`range_rx_multi_anchor.ino` line 191); `poll_rx_ts` is a `uint64_t`. -/
def anchor_resp_tx_time32 (poll_rx_ts aid : Nat) : Nat :=
  ((poll_rx_ts % 18446744073709551616 + us_to_dwt (slot_delay_us aid)) %
      18446744073709551616) / 256 % 4294967296

/-- `resp_tx_ts = (((uint64_t)(resp_tx_time32 & 0xFFFFFFFE)) << 8) + TX_ANT_DLY`
(`range_rx_multi_anchor.ino` line 195); clearing bit 0 is subtracting the
parity. -/
def anchor_resp_tx_ts (poll_rx_ts aid : Nat) : Nat :=
  (anchor_resp_tx_time32 poll_rx_ts aid -
      anchor_resp_tx_time32 poll_rx_ts aid % 2) * 256 + TX_ANT_DLY

/-- Result of one good-frame iteration of the anchor loop: the frame sequence
counter, the frames actually transmitted, how many `RESP sent` and how many
`Missed delayed TX window` reports were printed, and the receive buffer. -/
structure AnchorOut where
  seq : Nat
  txFrames : List (List Nat)
  sentReports : Nat
  missedReports : Nat
  buf : List Nat

/-- One good-frame iteration of the anchor loop
(`range_rx_multi_anchor.ino` lines 166-241): if the frame fits the buffer it
is read and header-checked; a valid poll schedules a delayed response at this
anchor's slot.  `txOk` is `dwt_starttx(DWT_START_TX_DELAYED) == DWT_SUCCESS`:
on success the response is transmitted, the sequence counter increments and a
`RESP sent` line is printed; on failure exactly one missed-slot line is
printed, nothing is transmitted, and the counter is unchanged. -/
def anchor_process_frame (buf0 : List Nat) (seq aid : Nat) (frame : List Nat)
    (poll_rx_ts : Nat) (txOk : Bool) : AnchorOut :=
  if anchor_accept buf0 frame then
    if txOk then
      ⟨(seq + 1) % 256,
        [encode_response aid poll_rx_ts (anchor_resp_tx_ts poll_rx_ts aid)],
        1, 0, anchor_buf_z buf0 frame⟩
    else
      ⟨seq, [], 0, 1, anchor_buf_z buf0 frame⟩
  else if frame.length ≤ 20 then
    ⟨seq, [], 0, 0, anchor_buf_z buf0 frame⟩
  else
    ⟨seq, [], 0, 0, buf0⟩

/-- `load_id_or_fallback` (`range_rx_multi_anchor.ino` lines 84-89): the
`uint8_t` read back from EEPROM is kept if it lies in `[ID_MIN, ID_MAX]`,
otherwise the anchor silently uses `1`. -/
def load_id_or_fallback (id : Nat) : Nat :=
  if ID_MIN ≤ id ∧ id ≤ ID_MAX then id else 1

/-- Outcome of a `SETID <n>` console command. -/
inductive SetidOutcome where
  | saved : Nat → SetidOutcome
  | rejected : SetidOutcome
deriving DecidableEq

/-- `handle_serial_setid` (`range_rx_multi_anchor.ino` lines 91-105): a parsed
value in `[ID_MIN, ID_MAX]` is persisted (followed by a reboot), anything else
prints an `Invalid ID` diagnostic and changes nothing. -/
def handle_setid (v : Int) : SetidOutcome :=
  if (ID_MIN : Int) ≤ v ∧ v ≤ (ID_MAX : Int) then SetidOutcome.saved v.toNat
  else SetidOutcome.rejected

/-- The tag's state right after `setup()`: both per-anchor tables and the
receive buffer zeroed (`range_tx_tag_esp32_web.ino` line 72). -/
def tag_init : TagState :=
  ⟨List.replicate 20 0, List.replicate 20 0, List.replicate 32 0⟩

/-- A well-formed response frame carrying anchor identity 20 (a value the
anchor firmware accepts, since `ID_MAX = 20`). -/
def resp_id20 : List Nat := encode_response 20 0 0

/-- A 21-byte frame whose first ten bytes are exactly the expected poll
header: one byte too long for the anchor's 20-byte receive buffer. -/
def frame21 : List Nat := rx_poll_msg ++ List.replicate 9 0

end DW3000

namespace DW3000

/-- Zeroing the sequence byte commutes with taking the compared header, so the
header check only looks at the first ten received bytes. -/
theorem tag_buf_take10 (stale frame : List Nat) (h10 : 10 ≤ frame.length) :
    (tag_buf_z stale frame).take 10 = (frame.set 2 0).take 10 := by
  have hm : 10 ≤ min frame.length 32 := le_min h10 (by omega)
  have hA : 10 ≤ (frame.take (min frame.length 32)).length := by
    rw [List.length_take]
    omega
  calc (tag_buf_z stale frame).take 10
      = ((frame.take (min frame.length 32) ++
          stale.drop (min frame.length 32)).take 10).set 2 0 := by
        simp [tag_buf_z, tag_rx_buf, ALL_MSG_SN_IDX, List.set_take]
    _ = ((frame.take (min frame.length 32)).take 10).set 2 0 := by
        rw [List.take_append_of_le_length hA]
    _ = (frame.take 10).set 2 0 := by
        rw [List.take_take, min_eq_left hm]
    _ = (frame.set 2 0).take 10 := by rw [List.set_take]

/-- Evaluation of `resp_msg_get_ts` on an explicit four-byte field. -/
theorem resp_msg_get_ts_cons (b0 b1 b2 b3 : Nat) (rest : List Nat) :
    resp_msg_get_ts (b0 :: b1 :: b2 :: b3 :: rest) =
      b0 % 256 + b1 % 256 * 256 + b2 % 256 * 65536 + b3 % 256 * 16777216 := rfl

/-- With at least ten received bytes, `tag_accept` is exactly the spec's
header comparison on the frame itself. -/
theorem tag_accept_iff (stale frame : List Nat) (h10 : 10 ≤ frame.length) :
    tag_accept stale frame = true ↔
      (frame.set 2 0).take 10 = rx_resp_msg.take 10 := by
  have hm : 10 ≤ min frame.length 32 := le_min h10 (by omega)
  simp [tag_accept, ALL_MSG_COMMON_LEN, hm, tag_buf_take10 stale frame h10]

/-- Claim C2: the codec round-trip.  Encoding any identity byte with any pair
of 64-bit timestamps and classifying the resulting frame on the tag yields
`Response` (whatever the tag's residual buffer holds), and the two extracted
timestamp fields are exactly the encoded values modulo `2^32`. -/
theorem codec_roundtrip (id t1 t2 : Nat) (hid : id < 256) (stale : List Nat) :
    tag_classify stale (encode_response id t1 t2) = FrameClass.Response ∧
    resp_msg_get_ts ((encode_response id t1 t2).drop RESP_MSG_POLL_RX_TS_IDX) =
      t1 % 4294967296 ∧
    resp_msg_get_ts ((encode_response id t1 t2).drop RESP_MSG_RESP_TX_TS_IDX) =
      t2 % 4294967296 := by
  have henc : encode_response id t1 t2 =
      [0x41, 0x88, id, 0xCA, 0xDE, 86, 69, 87, 65, 0xE1,
       t1 % 256, t1 / 256 % 256, t1 / 65536 % 256, t1 / 16777216 % 256,
       t2 % 256, t2 / 256 % 256, t2 / 65536 % 256, t2 / 16777216 % 256, 0, 0] := by
    simp [encode_response, writeBytesAt, tx_resp_msg, resp_msg_set_ts_bytes,
      RESP_MSG_POLL_RX_TS_IDX, RESP_MSG_RESP_TX_TS_IDX, ALL_MSG_SN_IDX,
      List.take, List.drop]
  refine ⟨?_, ?_, ?_⟩
  · have h10 : 10 ≤ (encode_response id t1 t2).length := by rw [henc]; simp
    rw [tag_classify, if_pos]
    rw [tag_accept_iff stale _ h10, henc]
    simp [rx_resp_msg, tx_resp_msg, List.set, List.take]
  · rw [henc]
    have hdrop : ([0x41, 0x88, id, 0xCA, 0xDE, 86, 69, 87, 65, 0xE1,
        t1 % 256, t1 / 256 % 256, t1 / 65536 % 256, t1 / 16777216 % 256,
        t2 % 256, t2 / 256 % 256, t2 / 65536 % 256, t2 / 16777216 % 256, 0, 0] :
          List Nat).drop RESP_MSG_POLL_RX_TS_IDX =
        t1 % 256 :: t1 / 256 % 256 :: t1 / 65536 % 256 :: t1 / 16777216 % 256 ::
        [t2 % 256, t2 / 256 % 256, t2 / 65536 % 256, t2 / 16777216 % 256, 0, 0] := rfl
    rw [hdrop, resp_msg_get_ts_cons]
    omega
  · rw [henc]
    have hdrop : ([0x41, 0x88, id, 0xCA, 0xDE, 86, 69, 87, 65, 0xE1,
        t1 % 256, t1 / 256 % 256, t1 / 65536 % 256, t1 / 16777216 % 256,
        t2 % 256, t2 / 256 % 256, t2 / 65536 % 256, t2 / 16777216 % 256, 0, 0] :
          List Nat).drop RESP_MSG_RESP_TX_TS_IDX =
        t2 % 256 :: t2 / 256 % 256 :: t2 / 65536 % 256 :: t2 / 16777216 % 256 ::
        [0, 0] := rfl
    rw [hdrop, resp_msg_get_ts_cons]
    omega

/-- Witness for C2 at identity 5 and timestamps `2^40 + 7` and `123`. -/
theorem codec_roundtrip_witness :
    tag_classify [] (encode_response 5 (2 ^ 40 + 7) 123) = FrameClass.Response ∧
    resp_msg_get_ts ((encode_response 5 (2 ^ 40 + 7) 123).drop RESP_MSG_POLL_RX_TS_IDX) =
      (2 ^ 40 + 7) % 4294967296 ∧
    resp_msg_get_ts ((encode_response 5 (2 ^ 40 + 7) 123).drop RESP_MSG_RESP_TX_TS_IDX) =
      123 % 4294967296 :=
  codec_roundtrip 5 (2 ^ 40 + 7) 123 (by decide) []

/-- Counterexample to claim C3 as stated: with
`round_trip_initiator = round_trip_responder = 1240` and zero clock-offset
ratio, the code's estimator returns `0`, not
`round_trip_initiator / 2 * device_time_unit_seconds`. -/
theorem tof_claim_cex :
    tof_est 1240 1240 0 = 0 ∧
    tof_est 1240 1240 0 ≠ (1240 / 2) * DWT_TIME_UNITS := by
  constructor
  · norm_num [tof_est]
  · norm_num [tof_est, DWT_TIME_UNITS]

/-- Claim C3 as amended: if `round_trip_initiator == round_trip_responder` and
`clock_offset_ratio == 0`, the time of flight equals
`(round_trip_initiator - round_trip_responder) / 2 * device_time_unit_seconds`,
which is exactly `0` (the symmetric terms cancel; no asymmetric bias). -/
theorem tof_symmetry_cancels (ri rr : Int) (co : ℚ)
    (h1 : ri = rr) (h2 : co = 0) :
    tof_est ri rr co = (((ri : ℚ) - (rr : ℚ)) / 2) * DWT_TIME_UNITS ∧
    tof_est ri rr co = 0 := by
  subst h1
  subst h2
  constructor
  · simp [tof_est]
  · simp [tof_est]

/-- Witness for the amended C3 at `ri = rr = 1240`. -/
theorem tof_symmetry_cancels_witness :
    tof_est 1240 1240 0 = (((1240 : Int) : ℚ) - ((1240 : Int) : ℚ)) / 2 * DWT_TIME_UNITS ∧
    tof_est 1240 1240 0 = 0 :=
  tof_symmetry_cancels 1240 1240 0 rfl rfl

/-- Claim C4: the concrete scenario.  With `poll_tx_ts = 1000`,
`resp_rx_ts = 2240`, `poll_rx_ts = 1100`, `resp_tx_ts = 1340` and zero
clock-offset ratio, the modular subtractions give `rtd_init = 1240` and
`rtd_resp = 240`, the time of flight equals `(1240 - 240) / 2 * DWT_TIME_UNITS`
(about `7.825e-9 s`), and the distance is about `2.346 m`. -/
theorem concrete_scenario :
    wsub32 2240 1000 = 1240 ∧
    wsub32 1340 1100 = 240 ∧
    tof_est (wsub32 2240 1000) (wsub32 1340 1100) 0 =
      ((1240 - 240) / 2) * DWT_TIME_UNITS ∧
    |tof_est (wsub32 2240 1000) (wsub32 1340 1100) 0 - 7825 / 1000000000000| <
      1 / 1000000000000 ∧
    |tof_est (wsub32 2240 1000) (wsub32 1340 1100) 0 * SPEED_OF_LIGHT - 2346 / 1000| <
      1 / 1000 := by
  have h1 : wsub32 2240 1000 = 1240 := by decide
  have h2 : wsub32 1340 1100 = 240 := by decide
  refine ⟨h1, h2, ?_, ?_, ?_⟩
  · rw [h1, h2]
    norm_num [tof_est]
  · rw [h1, h2, abs_sub_lt_iff]
    constructor <;> norm_num [tof_est, DWT_TIME_UNITS]
  · rw [h1, h2, abs_sub_lt_iff]
    constructor <;> norm_num [tof_est, DWT_TIME_UNITS, SPEED_OF_LIGHT]

end DW3000

namespace DW3000

/-- For identities in the configured range the modular casts are inert and the
slot delay is literally `600 + (id - 1) * 2000`. -/
theorem slot_delay_us_eq (id : Nat) (h1 : 1 ≤ id) (h2 : id ≤ 20) :
    slot_delay_us id = 600 + (id - 1) * 2000 := by
  simp only [slot_delay_us, SLOT_DELAY_US, BASE_REPLY_DLY_US]
  omega

/-- Claim C1: with `BASE_REPLY_DLY_US = 600` and `SLOT_DELAY_US = 2000`, any
two distinct identities in `[ID_MIN, ID_MAX] = [1, 20]` get slot delays at
least `SLOT_DELAY_US` apart, and every delay in that range is at least
`BASE_REPLY_DLY_US`. -/
theorem slot_delays_disjoint_and_after_base (i j : Nat)
    (hi1 : ID_MIN ≤ i) (hi2 : i ≤ ID_MAX) (hj1 : ID_MIN ≤ j) (hj2 : j ≤ ID_MAX) :
    (i ≠ j →
      SLOT_DELAY_US ≤ ((slot_delay_us i : Int) - (slot_delay_us j : Int)).natAbs) ∧
    BASE_REPLY_DLY_US ≤ slot_delay_us i := by
  simp only [ID_MIN, ID_MAX] at hi1 hi2 hj1 hj2
  simp only [SLOT_DELAY_US, BASE_REPLY_DLY_US]
  rw [slot_delay_us_eq i hi1 hi2, slot_delay_us_eq j hj1 hj2]
  omega

/-- Witness for C1 at identities 1 and 2. -/
theorem slot_delays_disjoint_and_after_base_witness :
    (2000 : Nat) ≤ ((slot_delay_us 1 : Int) - (slot_delay_us 2 : Int)).natAbs ∧
    (600 : Nat) ≤ slot_delay_us 1 := by
  have h := slot_delays_disjoint_and_after_base 1 2
    (by decide) (by decide) (by decide) (by decide)
  exact ⟨h.1 (by decide), h.2⟩

/-- Two booleans agreeing as propositions are equal. -/
theorem bool_eq_of_iff (a b : Bool) (h : a = true ↔ b = true) : a = b := by
  cases a <;> cases b <;> simp_all

/-- On the anchor, for a frame that fits the receive buffer and covers the
header, acceptance is exactly the header comparison on the frame itself. -/
theorem anchor_accept_iff (buf0 frame : List Nat)
    (h10 : 10 ≤ frame.length) (h20 : frame.length ≤ 20) :
    anchor_accept buf0 frame = true ↔
      (frame.set 2 0).take 10 = rx_poll_msg.take 10 := by
  have hbuf : (anchor_buf_z buf0 frame).take 10 = (frame.set 2 0).take 10 := by
    calc (anchor_buf_z buf0 frame).take 10
        = ((frame ++ buf0.drop frame.length).take 10).set 2 0 := by
          simp [anchor_buf_z, ALL_MSG_SN_IDX, List.set_take]
      _ = (frame.take 10).set 2 0 := by rw [List.take_append_of_le_length h10]
      _ = (frame.set 2 0).take 10 := by rw [List.set_take]
  simp [anchor_accept, ALL_MSG_COMMON_LEN, h20, hbuf]

/-- Claim C5 (the failing input): after the anchor has processed one valid
poll, a two-byte frame `0x41 0x88` — far shorter than
`ALL_MSG_COMMON_LEN = 10` — is accepted as a poll and answered, because the
`memcmp` always reads ten buffer bytes and the stale tail of the previous
poll completes the header. -/
theorem anchor_accepts_short_frame :
    (anchor_process_frame
        (anchor_process_frame (List.replicate 20 0) 0 1 rx_poll_msg 0 true).buf
        0 1 [0x41, 0x88] 0 true).sentReports = 1 ∧
    [0x41, 0x88].length < ALL_MSG_COMMON_LEN := by decide

/-- Counterexample to claim C6 as stated: a 21-byte frame whose first ten
bytes (with the sequence byte zeroed) equal the expected poll header is
nevertheless not accepted by the anchor — the claimed equivalence fails
because frames longer than the anchor's 20-byte buffer are dropped unread. -/
theorem header_equiv_cex :
    10 ≤ frame21.length ∧
    (frame21.set 2 0).take 10 = rx_poll_msg.take 10 ∧
    (anchor_process_frame (List.replicate 20 0) 0 1 frame21 0 true).sentReports = 0 ∧
    (anchor_process_frame (List.replicate 20 0) 0 1 frame21 0 true).missedReports = 0 := by
  decide

/-- Claim C6 as amended: for frames of at least `ALL_MSG_COMMON_LEN = 10`
bytes, classification ignores byte 2 and is exactly the comparison of the
first ten bytes (sequence byte zeroed) against the expected header — on the
tag for every such frame, and on the anchor additionally provided the frame
fits its 20-byte receive buffer (longer frames are dropped unexamined). -/
theorem classification_matches_header (st : TagState) (frame : List Nat)
    (pt rr : Nat) (co : ℚ) (now : Nat) (buf0 : List Nat) (seq aid prx : Nat)
    (txOk : Bool) (v : Nat) (h10 : 10 ≤ frame.length) :
    (tag_classify st.buf frame = FrameClass.Response ↔
      (frame.set 2 0).take 10 = rx_resp_msg.take 10) ∧
    (tag_classify st.buf (frame.set 2 v) = tag_classify st.buf frame) ∧
    ((tag_process_frame st frame pt rr co now).2 ≠ [] ↔
      tag_classify st.buf frame = FrameClass.Response) ∧
    (frame.length ≤ 20 →
      ((anchor_process_frame buf0 seq aid frame prx txOk).sentReports +
          (anchor_process_frame buf0 seq aid frame prx txOk).missedReports = 1 ↔
        (frame.set 2 0).take 10 = rx_poll_msg.take 10)) ∧
    (frame.length ≤ 20 →
      (anchor_process_frame buf0 seq aid (frame.set 2 v) prx txOk).sentReports +
          (anchor_process_frame buf0 seq aid (frame.set 2 v) prx txOk).missedReports =
        (anchor_process_frame buf0 seq aid frame prx txOk).sentReports +
          (anchor_process_frame buf0 seq aid frame prx txOk).missedReports) := by
  have hlen : (frame.set 2 v).length = frame.length := List.length_set frame 2 v
  have hkey := tag_accept_iff st.buf frame h10
  have hkey2 := tag_accept_iff st.buf (frame.set 2 v) (by rw [hlen]; exact h10)
  have hsetset : ((frame.set 2 v).set 2 0).take 10 = (frame.set 2 0).take 10 := by
    rw [List.set_set]
  have haccv : tag_accept st.buf (frame.set 2 v) = tag_accept st.buf frame := by
    apply bool_eq_of_iff
    rw [hkey, hkey2, hsetset]
  refine ⟨?_, ?_, ?_, ?_, ?_⟩
  · rw [← hkey]
    unfold tag_classify
    cases tag_accept st.buf frame <;> simp
  · unfold tag_classify
    rw [haccv]
  · unfold tag_process_frame tag_classify
    cases tag_accept st.buf frame <;> simp
    split <;> simp
  · intro h20
    have hkeya := anchor_accept_iff buf0 frame h10 h20
    by_cases hacc : anchor_accept buf0 frame = true
    · rw [anchor_process_frame, if_pos hacc]
      have : (frame.set 2 0).take 10 = rx_poll_msg.take 10 := hkeya.mp hacc
      cases txOk <;> simp [this]
    · rw [anchor_process_frame, if_neg hacc, if_pos h20]
      simp only []
      constructor
      · intro h
        exact absurd h (by simp)
      · intro h
        exact absurd (hkeya.mpr h) hacc
  · intro h20
    have h20v : (frame.set 2 v).length ≤ 20 := by rw [hlen]; exact h20
    have hkeya := anchor_accept_iff buf0 frame h10 h20
    have hkeyav := anchor_accept_iff buf0 (frame.set 2 v) (by rw [hlen]; exact h10) h20v
    have haccva : anchor_accept buf0 (frame.set 2 v) = anchor_accept buf0 frame := by
      apply bool_eq_of_iff
      rw [hkeya, hkeyav, hsetset]
    by_cases hacc : anchor_accept buf0 frame = true
    · have hacc2 : anchor_accept buf0 (frame.set 2 v) = true := by
        rw [haccva]
        exact hacc
      cases txOk <;> simp [anchor_process_frame, hacc, hacc2]
    · have hacc2 : ¬anchor_accept buf0 (frame.set 2 v) = true := by
        rw [haccva]
        exact hacc
      simp [anchor_process_frame, hacc, hacc2, h20, h20v]

/-- Witness for the amended C6: a valid 20-byte response frame on the tag and
a valid 12-byte poll on the anchor. -/
theorem classification_matches_header_witness :
    (tag_classify tag_init.buf (encode_response 4 1 2) = FrameClass.Response ↔
      ((encode_response 4 1 2).set 2 0).take 10 = rx_resp_msg.take 10) ∧
    ((anchor_process_frame (List.replicate 20 0) 0 1 rx_poll_msg 0 true).sentReports +
        (anchor_process_frame (List.replicate 20 0) 0 1 rx_poll_msg 0 true).missedReports = 1 ↔
      (rx_poll_msg.set 2 0).take 10 = rx_poll_msg.take 10) := by
  refine ⟨?_, ?_⟩
  · exact (classification_matches_header tag_init (encode_response 4 1 2)
      0 0 0 0 [] 0 0 0 true 0 (by decide)).1
  · exact (classification_matches_header tag_init rx_poll_msg
      0 0 0 0 (List.replicate 20 0) 0 1 0 true 0 (by decide)).2.2.2.1 (by decide)

/-- Counterexample to claim C7 as stated: an out-of-range persisted identity
(0, or 21 > `ID_MAX`) does not fail configuration validation — at startup the
anchor silently substitutes identity 1 and goes on to compute its slot delay
(600 µs), reporting no configuration error. -/
theorem out_of_range_id_silent_fallback :
    load_id_or_fallback 0 = 1 ∧ load_id_or_fallback 21 = 1 ∧
    slot_delay_us (load_id_or_fallback 0) = BASE_REPLY_DLY_US := by decide

/-- Claim C7 as amended: an identity outside `[ID_MIN, ID_MAX]` never reaches
the slot computation — the `SETID` console command rejects it with a
diagnostic and no state change, while an out-of-range persisted identity is
silently replaced by the fallback identity 1 at startup (no configuration
error is reported), so the identity used for slot scheduling always lies in
`[ID_MIN, ID_MAX]`. -/
theorem identity_validation (e : Nat) (v : Int) :
    ID_MIN ≤ load_id_or_fallback e ∧ load_id_or_fallback e ≤ ID_MAX ∧
    (¬(ID_MIN ≤ e ∧ e ≤ ID_MAX) → load_id_or_fallback e = 1) ∧
    (handle_setid v = SetidOutcome.rejected ↔
      ¬((ID_MIN : Int) ≤ v ∧ v ≤ (ID_MAX : Int))) := by
  refine ⟨?_, ?_, ?_, ?_⟩
  · simp only [load_id_or_fallback, ID_MIN, ID_MAX]
    split <;> omega
  · simp only [load_id_or_fallback, ID_MIN, ID_MAX]
    split <;> omega
  · intro h
    simp only [load_id_or_fallback, if_neg h]
  · simp only [handle_setid]
    split
    · rename_i h
      simp [h]
    · rename_i h
      simp [h]

/-- Witness for the amended C7 at persisted value 21 and `SETID 21`. -/
theorem identity_validation_witness :
    load_id_or_fallback 21 = 1 ∧ handle_setid 21 = SetidOutcome.rejected :=
  ⟨(identity_validation 21 21).2.2.1 (by decide),
   ((identity_validation 21 21).2.2.2).mpr (by decide)⟩

/-- Claim C8: whenever the anchor's delayed transmission is rejected
(`dwt_starttx(DWT_START_TX_DELAYED) != DWT_SUCCESS`), the anchor prints
exactly one missed-slot report, transmits nothing, does not increment
`frame_seq_nb`, and prints no success report, for any accepted poll. -/
theorem missed_slot_no_retry (buf0 : List Nat) (seq aid : Nat)
    (frame : List Nat) (prx : Nat)
    (hacc : anchor_accept buf0 frame = true) :
    (anchor_process_frame buf0 seq aid frame prx false).missedReports = 1 ∧
    (anchor_process_frame buf0 seq aid frame prx false).sentReports = 0 ∧
    (anchor_process_frame buf0 seq aid frame prx false).txFrames = [] ∧
    (anchor_process_frame buf0 seq aid frame prx false).seq = seq := by
  rw [anchor_process_frame, if_pos hacc]
  exact ⟨rfl, rfl, rfl, rfl⟩

/-- Witness for C8: a valid poll received by anchor 3 at sequence 7 whose
delayed transmit is rejected. -/
theorem missed_slot_no_retry_witness :
    (anchor_process_frame (List.replicate 20 0) 7 3 rx_poll_msg 0 false).missedReports = 1 ∧
    (anchor_process_frame (List.replicate 20 0) 7 3 rx_poll_msg 0 false).sentReports = 0 ∧
    (anchor_process_frame (List.replicate 20 0) 7 3 rx_poll_msg 0 false).txFrames = [] ∧
    (anchor_process_frame (List.replicate 20 0) 7 3 rx_poll_msg 0 false).seq = 7 :=
  missed_slot_no_retry (List.replicate 20 0) 7 3 rx_poll_msg 0 (by decide)

/-- `Nat.digitChar` of a value below ten is a decimal digit character. -/
theorem digitChar_isDigit (m : Nat) (h : m < 10) : (Nat.digitChar m).isDigit = true := by
  interval_cases m <;> decide

/-- Counterexample to claim C9 as stated: a well-formed response frame
carrying anchor identity 20 (an identity the anchor firmware accepts, since
`ID_MAX = 20`) produces a `RangeMeasurement` printed as a `DIST:` fallback
line, not as a `[TAG] A.. = .. m` line. -/
theorem tag_line_cex :
    (tag_process_frame tag_init resp_id20 0 0 0 0).2 = ["DIST: 0.00 m"] ∧
    ("DIST: 0.00 m").data.take 7 ≠ ("[TAG] A").data := by
  constructor
  · have hacc : tag_accept tag_init.buf resp_id20 = true := by decide
    have hid20 : ¬tag_seen_id tag_init.buf resp_id20 < MAX_ANCHORS := by decide
    have h1 : resp_msg_get_ts
        ((tag_buf_z tag_init.buf resp_id20).drop RESP_MSG_RESP_TX_TS_IDX) = 0 := by decide
    have h2 : resp_msg_get_ts
        ((tag_buf_z tag_init.buf resp_id20).drop RESP_MSG_POLL_RX_TS_IDX) = 0 := by decide
    have hw : wsub32 0 0 = 0 := by decide
    have hd : tag_distance (tag_buf_z tag_init.buf resp_id20) 0 0 0 = 0 := by
      rw [tag_distance, h1, h2, hw]
      norm_num [tof_est]
    have hfl : (⌊|(0 : ℚ)| * 100 + 1 / 2⌋ : Int) = 0 := by
      rw [Int.floor_eq_iff]
      constructor <;> norm_num
    have hf : fmt2 0 = "0.00" := by
      rw [fmt2, if_neg (lt_irrefl (0 : ℚ)), hfl]
      decide
    rw [tag_process_frame, if_pos hacc, if_neg hid20]
    show ["DIST: " ++ fmt2 (tag_distance (tag_buf_z tag_init.buf resp_id20) 0 0 0) ++
        " m"] = ["DIST: 0.00 m"]
    rw [hd, hf]
    rfl
  · decide

/-- Claim C9 as amended: for every `RangeMeasurement` whose extracted anchor
identity is below `MAX_ANCHORS = 20`, the tag prints exactly one line
`"[TAG] A" ++ <id> ++ " = " ++ <distance> ++ " m"`, where the id is rendered
as an unsigned decimal numeral with no leading zero and the distance carries
exactly two decimal digits (measurements with id ≥ 20 take the `DIST:`
fallback instead). -/
theorem tag_line_format (st : TagState) (frame : List Nat) (pt rr : Nat)
    (co : ℚ) (now : Nat)
    (hacc : tag_accept st.buf frame = true)
    (hlt : tag_seen_id st.buf frame < MAX_ANCHORS) :
    ∃ d : ℚ,
      (tag_process_frame st frame pt rr co now).2 =
        ["[TAG] A" ++ Nat.repr (tag_seen_id st.buf frame) ++ " = " ++ fmt2 d ++ " m"] ∧
      (0 ≤ d → fmt2 d =
        Nat.repr ((⌊d * 100 + 1 / 2⌋).toNat / 100) ++ "." ++
          two_dec_digits (⌊d * 100 + 1 / 2⌋).toNat) ∧
      (∀ n : Nat, (two_dec_digits n).length = 2) ∧
      (∀ n : Nat, ∀ c ∈ (two_dec_digits n).data, c.isDigit = true) ∧
      (tag_seen_id st.buf frame ≠ 0 →
        (Nat.repr (tag_seen_id st.buf frame)).front ≠ '0') := by
  refine ⟨tag_distance (tag_buf_z st.buf frame) pt rr co, ?_, ?_, ?_, ?_, ?_⟩
  · simp [tag_process_frame, hacc, hlt]
  · intro hd
    simp [fmt2, not_lt.mpr hd, abs_of_nonneg hd]
  · intro n
    rfl
  · intro n c hc
    simp [two_dec_digits] at hc
    rcases hc with h | h <;> subst h
    · exact digitChar_isDigit _ (Nat.mod_lt _ (by norm_num))
    · exact digitChar_isDigit _ (Nat.mod_lt _ (by norm_num))
  · intro hne
    have h20 : tag_seen_id st.buf frame < 20 := by
      simpa [MAX_ANCHORS] using hlt
    generalize hg : tag_seen_id st.buf frame = n at hne h20
    interval_cases n
    · exact absurd rfl hne
    all_goals decide

/-- Witness for the amended C9: a fresh tag processing a response from
anchor 3. -/
theorem tag_line_format_witness :
    ∃ d : ℚ,
      (tag_process_frame tag_init (encode_response 3 0 0) 0 0 0 0).2 =
        ["[TAG] A" ++ Nat.repr (tag_seen_id tag_init.buf (encode_response 3 0 0)) ++
          " = " ++ fmt2 d ++ " m"] ∧
      (0 ≤ d → fmt2 d =
        Nat.repr ((⌊d * 100 + 1 / 2⌋).toNat / 100) ++ "." ++
          two_dec_digits (⌊d * 100 + 1 / 2⌋).toNat) ∧
      (∀ n : Nat, (two_dec_digits n).length = 2) ∧
      (∀ n : Nat, ∀ c ∈ (two_dec_digits n).data, c.isDigit = true) ∧
      (tag_seen_id tag_init.buf (encode_response 3 0 0) ≠ 0 →
        (Nat.repr (tag_seen_id tag_init.buf (encode_response 3 0 0))).front ≠ '0') :=
  tag_line_format tag_init (encode_response 3 0 0) 0 0 0 0 (by decide) (by decide)

/-- Claim C10: the per-anchor tables are written only behind the
`anchor_id < MAX_ANCHORS` guard.  For any accepted response: if the extracted
id is at least 20 both tables are left unchanged and a `DIST:` fallback line
is printed; if it is below 20 exactly the entry at that id is set; and in
every case the table lengths are preserved (no out-of-bounds index is ever
written). -/
theorem anchor_tables_guarded (st : TagState) (frame : List Nat) (pt rr : Nat)
    (co : ℚ) (now : Nat)
    (hacc : tag_accept st.buf frame = true) :
    (MAX_ANCHORS ≤ tag_seen_id st.buf frame →
      (tag_process_frame st frame pt rr co now).1.distances = st.distances ∧
      (tag_process_frame st frame pt rr co now).1.last_seen = st.last_seen ∧
      ∃ d : ℚ, (tag_process_frame st frame pt rr co now).2 = ["DIST: " ++ fmt2 d ++ " m"]) ∧
    (tag_seen_id st.buf frame < MAX_ANCHORS →
      ∃ d : ℚ,
        (tag_process_frame st frame pt rr co now).1.distances =
          st.distances.set (tag_seen_id st.buf frame) d ∧
        (tag_process_frame st frame pt rr co now).1.last_seen =
          st.last_seen.set (tag_seen_id st.buf frame) now) ∧
    (tag_process_frame st frame pt rr co now).1.distances.length = st.distances.length ∧
    (tag_process_frame st frame pt rr co now).1.last_seen.length = st.last_seen.length := by
  refine ⟨?_, ?_, ?_, ?_⟩
  · intro hge
    have hlt : ¬tag_seen_id st.buf frame < MAX_ANCHORS := not_lt.mpr hge
    refine ⟨?_, ?_, ⟨tag_distance (tag_buf_z st.buf frame) pt rr co, ?_⟩⟩ <;>
      simp [tag_process_frame, hacc, hlt]
  · intro hlt
    exact ⟨tag_distance (tag_buf_z st.buf frame) pt rr co,
      by simp [tag_process_frame, hacc, hlt],
      by simp [tag_process_frame, hacc, hlt]⟩
  · by_cases hlt : tag_seen_id st.buf frame < MAX_ANCHORS <;>
      simp [tag_process_frame, hacc, hlt]
  · by_cases hlt : tag_seen_id st.buf frame < MAX_ANCHORS <;>
      simp [tag_process_frame, hacc, hlt]

/-- Witness for C10: a response carrying identity 20 leaves both tables of a
fresh tag unchanged. -/
theorem anchor_tables_guarded_witness :
    (tag_process_frame tag_init resp_id20 0 0 0 0).1.distances = tag_init.distances ∧
    (tag_process_frame tag_init resp_id20 0 0 0 0).1.last_seen = tag_init.last_seen := by
  have h := anchor_tables_guarded tag_init resp_id20 0 0 0 0 (by decide)
  have h2 := h.1 (by decide)
  exact ⟨h2.1, h2.2.1⟩

end DW3000
